import Mathlib

/-!
Verification of the anti-drone-c2 tuning/evaluation harness.

This file gives a shallow embedding, in Lean 4, of the core algorithmic
functions of the repository:

 * `analysis/scripts/eval_classification_report.py`
   (`compute_pred_label`, `extract_drone_labels`,
   `extract_predictions_from_log`, `compute_metrics`,
   `compute_roc_pr_data`),
 * `analysis/auto_tune.py`
   (`compute_objective_score`, the best-tracking loop of `run_auto_tune`,
   and the runtime-parameter-file lifecycle of a single trial iteration),
 * `analysis/auto_tuning_config.py` (`ParamSpace`, `sample_params`).

Modelling conventions:
 * Python floats are modelled as rationals (`ℚ`); the numeric values the
   claims exercise are exactly representable, so no rounding semantics of
   IEEE floats are involved.
 * A Python value that may be `None` is an `Option`; `dict.get` with a
   default is `Option.getD`.
 * Python truthiness of optional strings/numbers (`if x:` treats `None`,
   `""` and `0` as false) is made explicit by `pyTruthyStr` / `pyTruthyNum`,
   and Python's short-circuiting `x or y` by `pyOrStr` / `pyOrNum`.
 * `str.upper().strip()` is modelled character-wise (ASCII case mapping and
   whitespace stripping); the label strings this program compares are ASCII,
   where Python agrees with this model.
 * File input/output, printing and subprocess management are outside the
   embedding; the stateful parts (the search loop's best tracking, and the
   runtime-parameter file's existence across one trial iteration) are
   modelled by explicit state passing.
-/

/-- Truthiness of an optional Python string: `None` and `""` are falsy. -/
def pyTruthyStr : Option String → Bool
  | none => false
  | some s => decide (s ≠ "")

/-- Truthiness of an optional Python number: `None` and `0` are falsy. -/
def pyTruthyNum : Option ℚ → Bool
  | none => false
  | some x => decide (x ≠ 0)

/-- Python `a or b` on optional numbers: yields `a` when `a` is truthy,
otherwise yields `b` verbatim (even when `b` is itself falsy). -/
def pyOrNum (a b : Option ℚ) : Option ℚ :=
  if pyTruthyNum a then a else b

/-- Python `a or b` on optional strings. -/
def pyOrStr (a b : Option String) : Option String :=
  if pyTruthyStr a then a else b

/-- ASCII upper-casing of a string, Python `str.upper()` on ASCII data. -/
def strUpper (s : String) : String :=
  String.mk (s.data.map Char.toUpper)

/-- Strip leading and trailing whitespace from a character list. -/
def stripChars (l : List Char) : List Char :=
  ((l.dropWhile Char.isWhitespace).reverse.dropWhile Char.isWhitespace).reverse

/-- Python `str.strip()`: remove leading and trailing whitespace. -/
def strStrip (s : String) : String :=
  String.mk (stripChars s.data)

/-- Normalization `str(x).upper().strip()` applied to label strings in
`eval_classification_report.py`. -/
def normalizeLabel (s : String) : String :=
  strStrip (strUpper s)

/-! ### eval_classification_report.py: configuration and decision rule -/

/-- Threat-score threshold default (`THREAT_ENGAGE_THRESHOLD = 70.0`). -/
def THREAT_ENGAGE_THRESHOLD : ℚ := 70

/-- Classification-confidence threshold default
(`CLASS_CONFIDENCE_THRESHOLD = 0.7`). -/
def CLASS_CONFIDENCE_THRESHOLD : ℚ := 7/10

/-- Embedding of `compute_pred_label` (eval_classification_report.py,
lines 41-70): priority 1 returns HOSTILE from the threat score, priority 2
returns CIVIL from a truthy classification string that normalizes to CIVIL
together with a sufficient confidence, and everything else is UNKNOWN. -/
def compute_pred_label (threat_score : Option ℚ) (classification : Option String)
    (class_confidence : Option ℚ)
    (threat_threshold class_confidence_threshold : ℚ) : String :=
  if threat_score.isSome ∧ threat_score.getD 0 ≥ threat_threshold then
    "HOSTILE"
  else if pyTruthyStr classification
      ∧ normalizeLabel (classification.getD "") = "CIVIL"
      ∧ class_confidence.isSome
      ∧ class_confidence.getD 0 ≥ class_confidence_threshold then
    "CIVIL"
  else
    "UNKNOWN"

/-- Decision rule exactly as the specification words it (claim C1): the
second branch asks only that the upper-cased, stripped classification
string equal CIVIL, with no separate truthiness guard. Stated separately
from `compute_pred_label` so that the two can be compared. -/
def pred_label_spec (threat_score : Option ℚ) (classification : Option String)
    (class_confidence : Option ℚ)
    (threat_threshold class_confidence_threshold : ℚ) : String :=
  if threat_score.isSome ∧ threat_score.getD 0 ≥ threat_threshold then
    "HOSTILE"
  else if classification.map normalizeLabel = some "CIVIL"
      ∧ class_confidence.isSome
      ∧ class_confidence.getD 0 ≥ class_confidence_threshold then
    "CIVIL"
  else
    "UNKNOWN"

/-- C1: compute_pred_label follows the fixed ordered decision rule: a present
threat score at or above the threat threshold yields HOSTILE regardless of the
classification arguments; otherwise a classification normalizing to CIVIL with
a present confidence at or above the confidence threshold yields CIVIL;
otherwise UNKNOWN. In particular threat_score 75, classification CIVIL,
confidence 0.95 and threat threshold 70 yield HOSTILE. -/
theorem c1_decision_rule (threat_score : Option ℚ) (classification : Option String)
    (class_confidence : Option ℚ) (threat_threshold class_confidence_threshold : ℚ) :
    compute_pred_label threat_score classification class_confidence
      threat_threshold class_confidence_threshold
      = pred_label_spec threat_score classification class_confidence
        threat_threshold class_confidence_threshold
    ∧ compute_pred_label (some 75) (some "CIVIL") (some (19/20)) 70 (7/10)
      = "HOSTILE" := by
  constructor
  · unfold compute_pred_label pred_label_spec
    cases classification with
    | none => simp [pyTruthyStr]
    | some s =>
      by_cases hs : s = ""
      · subst hs
        have hciv : normalizeLabel "" ≠ "CIVIL" := by decide
        simp [pyTruthyStr, hciv]
      · simp [pyTruthyStr, hs]
  · unfold compute_pred_label
    norm_num

/-! ### eval_classification_report.py: log events and prediction extraction -/

/-- Fields of a `fused_track_update` event that the extractor reads
(eval_classification_report.py, lines 130-151). `none` models a missing
(or JSON-null) field; `class_info_confidence` is the `confidence` entry of
the nested `class_info` object, `none` when `class_info` is absent or has
no `confidence` key. The event timestamp is carried in the source records
but consulted by no claim, so it is omitted here. -/
structure FusedFields where
  threat_score : Option ℚ
  fused_threat_score : Option ℚ
  classification : Option String
  fused_classification : Option String
  class_confidence : Option ℚ
  class_info_confidence : Option ℚ
  true_label : Option String
  deriving DecidableEq

/-- One parsed JSONL log event, by its `event` discriminator. Events whose
type is none of the three recognized ones are `otherEvent`. -/
inductive LogEvent where
  | droneSpawned (drone_id : Option String) (true_label : Option String)
  | fusedTrackUpdate (drone_id : Option String) (fields : FusedFields)
  | threatScoreUpdate (drone_id : Option String) (total_score : Option ℚ)
  | otherEvent
  deriving DecidableEq

/-- Recognized true labels (`['HOSTILE', 'CIVIL', 'UNKNOWN']`). -/
def VALID_TRUE_LABELS : List String := ["HOSTILE", "CIVIL", "UNKNOWN"]

/-- Python dict assignment `m[k] = v` on an association list: replace the
binding when the key is present, else append it. -/
def dictInsert (m : List (String × String)) (k v : String) :
    List (String × String) :=
  if m.any fun p => p.1 = k then
    m.map fun p => if p.1 = k then (k, v) else p
  else
    m ++ [(k, v)]

/-- Python dict lookup: value of the binding for `k`, if any. -/
def dictLookup (m : List (String × String)) (k : String) : Option String :=
  (m.find? fun p => p.1 = k).map Prod.snd

/-- Embedding of `extract_drone_labels` (lines 93-107): scan
`drone_spawned` events, keep truthy ids with truthy labels whose
normalization is recognized. -/
def extract_drone_labels (events : List LogEvent) : List (String × String) :=
  events.foldl
    (fun acc e =>
      match e with
      | .droneSpawned did tl =>
          if pyTruthyStr did ∧ pyTruthyStr tl then
            let n := normalizeLabel (tl.getD "")
            if n ∈ VALID_TRUE_LABELS then dictInsert acc (did.getD "") n else acc
          else acc
      | _ => acc)
    []

/-- Threat score used for a `fused_track_update` prediction (line 131):
`event.get('threat_score') or event.get('fused_threat_score')`. -/
def fusedThreatScore (f : FusedFields) : Option ℚ :=
  pyOrNum f.threat_score f.fused_threat_score

/-- Classification used for a `fused_track_update` prediction (line 133):
`event.get('classification') or event.get('fused_classification')`. -/
def fusedClassification (f : FusedFields) : Option String :=
  pyOrStr f.classification f.fused_classification

/-- Class confidence used for a `fused_track_update` prediction (line 134):
`event.get('class_confidence') or event.get('class_info', {}).get('confidence', 0)`.
The right operand of `or` is always a number, so the result is never `None`. -/
def fusedClassConfidence (f : FusedFields) : Option ℚ :=
  pyOrNum f.class_confidence (some (f.class_info_confidence.getD 0))

/-- One derived prediction record (the dict appended at lines 143-151 and
161-169; the timestamp entry is omitted, see `FusedFields`). -/
structure Prediction where
  drone_id : String
  true_label : String
  pred_label : String
  threat_score : Option ℚ
  classification : Option String
  class_confidence : Option ℚ
  deriving DecidableEq

/-- The prediction extracted from one event, if any: the per-event body of
the loop of `extract_predictions_from_log` (lines 120-169), including the
`if not drone_id or drone_id not in drone_labels: continue` guard and the
per-event `true_label` override. -/
def predictionOfEvent (labels : List (String × String)) : LogEvent → Option Prediction
  | .fusedTrackUpdate did f =>
      if pyTruthyStr did ∧ (dictLookup labels (did.getD "")).isSome then
        let spawnLabel := (dictLookup labels (did.getD "")).getD ""
        let tl := if pyTruthyStr f.true_label then f.true_label.getD "" else spawnLabel
        let ts := fusedThreatScore f
        let cls := fusedClassification f
        let cc := fusedClassConfidence f
        some ⟨did.getD "", tl,
              compute_pred_label ts cls cc
                THREAT_ENGAGE_THRESHOLD CLASS_CONFIDENCE_THRESHOLD,
              ts, cls, cc⟩
      else none
  | .threatScoreUpdate did total =>
      if pyTruthyStr did ∧ (dictLookup labels (did.getD "")).isSome then
        let tl := (dictLookup labels (did.getD "")).getD ""
        some ⟨did.getD "", tl,
              compute_pred_label total none none
                THREAT_ENGAGE_THRESHOLD CLASS_CONFIDENCE_THRESHOLD,
              total, none, none⟩
      else none
  | _ => none

/-- Embedding of `extract_predictions_from_log` (lines 110-171), applied to
the already-parsed events of one log file (`load_log_events` is file
input/output and stays outside the model): the early return on an empty
label table, then one optional prediction per event. -/
def extract_predictions_from_log (events : List LogEvent) : List Prediction :=
  let labels := extract_drone_labels events
  if labels = [] then []
  else events.filterMap (predictionOfEvent labels)

/-! ### eval_classification_report.py: metric computation -/

/-- Count of true positives accrued to label `l` by the loop at lines
196-204: predictions classified correctly whose true label is `l`. -/
def tpCount (preds : List Prediction) (l : String) : ℕ :=
  preds.countP fun p => decide (p.true_label = p.pred_label) && decide (p.true_label = l)

/-- Count of false negatives accrued to label `l`: misclassified
predictions whose true label is `l`. -/
def fnCount (preds : List Prediction) (l : String) : ℕ :=
  preds.countP fun p => !decide (p.true_label = p.pred_label) && decide (p.true_label = l)

/-- Count of false positives accrued to label `l`: misclassified
predictions whose predicted label is `l`. -/
def fpCount (preds : List Prediction) (l : String) : ℕ :=
  preds.countP fun p => !decide (p.true_label = p.pred_label) && decide (p.pred_label = l)

/-- Correctly classified predictions (line 190). -/
def correctCount (preds : List Prediction) : ℕ :=
  preds.countP fun p => decide (p.true_label = p.pred_label)

/-- Per-label derived statistics (the `{label}_precision` .. `{label}_FN`
entries written at lines 214-229). -/
structure LabelStats where
  precision : ℚ
  recall' : ℚ
  f1 : ℚ
  TP : ℕ
  FP : ℕ
  FN : ℕ
  deriving DecidableEq

/-- The per-label block of `compute_metrics` (lines 214-229), with the
source's explicit zero-denominator guards. -/
def labelStats (preds : List Prediction) (l : String) : LabelStats :=
  let tp := tpCount preds l
  let fp := fpCount preds l
  let fn := fnCount preds l
  let precision : ℚ := if tp + fp > 0 then (tp : ℚ) / ((tp : ℚ) + fp) else 0
  let recall' : ℚ := if tp + fn > 0 then (tp : ℚ) / ((tp : ℚ) + fn) else 0
  let f1 : ℚ :=
    if precision + recall' > 0 then 2 * precision * recall' / (precision + recall') else 0
  ⟨precision, recall', f1, tp, fp, fn⟩

/-- The metrics mapping built by `compute_metrics` for a non-empty
prediction list (lines 189-255), as a record; the labels it reports are
exactly HOSTILE, CIVIL and UNKNOWN. -/
structure MetricsOut where
  accuracy : ℚ
  total_predictions : ℕ
  correct : ℕ
  incorrect : ℕ
  hostileStats : LabelStats
  civilStats : LabelStats
  unknownStats : LabelStats
  FP_rate : ℚ
  FN_rate : ℚ
  civil_fp_rate : ℚ
  civil_fp_count : ℕ
  total_civil_samples : ℕ
  deriving DecidableEq

/-- Embedding of `compute_metrics` (lines 178-255). The Python function
returns the empty dict `{}` for an empty prediction list; that distinguished
empty result is modelled as `none`. -/
def compute_metrics (preds : List Prediction) : Option MetricsOut :=
  if preds = [] then none
  else
    let correct := correctCount preds
    let accuracy : ℚ := if preds.length > 0 then (correct : ℚ) / preds.length else 0
    let hostile := labelStats preds "HOSTILE"
    let civil := labelStats preds "CIVIL"
    let unknown := labelStats preds "UNKNOWN"
    let total_hostile := hostile.TP + hostile.FN
    let fp_rate : ℚ := if preds.length > 0 then (hostile.FP : ℚ) / preds.length else 0
    let fn_rate : ℚ :=
      if total_hostile > 0 then (hostile.FN : ℚ) / (total_hostile : ℚ) else 0
    let civil_fp_count :=
      preds.countP fun p => decide (p.true_label = "CIVIL") && decide (p.pred_label = "HOSTILE")
    let total_civil := preds.countP fun p => decide (p.true_label = "CIVIL")
    let civil_fp_rate : ℚ :=
      if total_civil > 0 then (civil_fp_count : ℚ) / (total_civil : ℚ) else 0
    some ⟨accuracy, preds.length, correct, preds.length - correct,
          hostile, civil, unknown, fp_rate, fn_rate,
          civil_fp_rate, civil_fp_count, total_civil⟩

/-- How callers read a rate out of the metrics object: `metrics.get(key, 0)`
yields the stored value on a populated metrics dict and the default `0` on
the empty dict. -/
def metricsField (m : Option MetricsOut) (f : MetricsOut → ℚ) : ℚ :=
  match m with
  | none => 0
  | some mm => f mm

/-! ### eval_classification_report.py: ROC/PR threshold sweep -/

/-- One emitted ROC point (threshold, TPR, FPR). -/
structure RocPoint where
  threshold : ℕ
  tpr : ℚ
  fpr : ℚ
  deriving DecidableEq

/-- One emitted PR point (threshold, precision, recall). -/
structure PrPoint where
  threshold : ℕ
  precision : ℚ
  recall' : ℚ
  deriving DecidableEq

/-- Return value of `compute_roc_pr_data`. -/
structure RocPrData where
  roc_points : List RocPoint
  pr_points : List PrPoint
  deriving DecidableEq

/-- Predictions carrying a non-None threat score (the filter at
lines 281-285). -/
def scoredPredictions (preds : List Prediction) : List Prediction :=
  preds.filter fun p => p.threat_score.isSome

/-- Insert one prediction into a list sorted by descending threat score
(`key=lambda x: x.get('threat_score', 0), reverse=True`). -/
def insertByScoreDesc (p : Prediction) : List Prediction → List Prediction
  | [] => [p]
  | q :: qs =>
      if q.threat_score.getD 0 ≥ p.threat_score.getD 0 then
        q :: insertByScoreDesc p qs
      else p :: q :: qs

/-- Sort predictions by descending threat score. The source's `sorted` is a
stable mergesort; every quantity `compute_roc_pr_data` emits is invariant
under reordering, so any sort into descending score order is faithful. -/
def sortByScoreDesc (l : List Prediction) : List Prediction :=
  l.foldr insertByScoreDesc []

/-- The list `sorted_preds` of `compute_roc_pr_data` (lines 281-285). -/
def sorted_preds (preds : List Prediction) : List Prediction :=
  sortByScoreDesc (scoredPredictions preds)

/-- The binary label recomputed at each rung (line 305):
`'HOSTILE' if threat_score >= threshold else 'UNKNOWN'`, reading the raw
`threat_score` field with default 0. -/
def rocPredLabelAt (t : ℚ) (p : Prediction) : String :=
  if p.threat_score.getD 0 ≥ t then "HOSTILE" else "UNKNOWN"

/-- Per-rung true positives (lines 302-316). -/
def rocTP (l : List Prediction) (label : String) (t : ℚ) : ℕ :=
  l.countP fun p => decide (p.true_label = label) && decide (rocPredLabelAt t p = label)

/-- Per-rung false negatives. -/
def rocFN (l : List Prediction) (label : String) (t : ℚ) : ℕ :=
  l.countP fun p => decide (p.true_label = label) && !decide (rocPredLabelAt t p = label)

/-- Per-rung false positives. -/
def rocFP (l : List Prediction) (label : String) (t : ℚ) : ℕ :=
  l.countP fun p => !decide (p.true_label = label) && decide (rocPredLabelAt t p = label)

/-- Per-rung true negatives. -/
def rocTN (l : List Prediction) (label : String) (t : ℚ) : ℕ :=
  l.countP fun p => !decide (p.true_label = label) && !decide (rocPredLabelAt t p = label)

/-- The threshold ladder `[i * 5 for i in range(0, 21)]` (line 294). -/
def rocThresholds : List ℕ :=
  (List.range 21).map fun i => i * 5

/-- The ROC point emitted for one threshold (lines 318-331). -/
def rocPointAt (l : List Prediction) (label : String) (t : ℕ) : RocPoint :=
  let tp := rocTP l label (t : ℚ)
  let fp := rocFP l label (t : ℚ)
  let fn := rocFN l label (t : ℚ)
  let tn := rocTN l label (t : ℚ)
  let tpr : ℚ := if tp + fn > 0 then (tp : ℚ) / ((tp : ℚ) + fn) else 0
  let fpr : ℚ := if fp + tn > 0 then (fp : ℚ) / ((fp : ℚ) + tn) else 0
  ⟨t, tpr, fpr⟩

/-- The PR point emitted for one threshold (lines 322-337); its recall is
the TPR. -/
def prPointAt (l : List Prediction) (label : String) (t : ℕ) : PrPoint :=
  let tp := rocTP l label (t : ℚ)
  let fp := rocFP l label (t : ℚ)
  let fn := rocFN l label (t : ℚ)
  let precision : ℚ := if tp + fp > 0 then (tp : ℚ) / ((tp : ℚ) + fp) else 0
  let tpr : ℚ := if tp + fn > 0 then (tp : ℚ) / ((tp : ℚ) + fn) else 0
  ⟨t, precision, tpr⟩

/-- Embedding of `compute_roc_pr_data` (lines 274-342): early return with
empty point lists when no prediction has a threat score, otherwise one ROC
and one PR point per threshold rung. -/
def compute_roc_pr_data (preds : List Prediction) (label : String) : RocPrData :=
  let sp := sorted_preds preds
  if sp = [] then ⟨[], []⟩
  else ⟨rocThresholds.map (rocPointAt sp label), rocThresholds.map (prPointAt sp label)⟩

/-! ### auto_tune.py: objective function -/

/-- The fields of one scenario's metrics dict that
`compute_objective_score` consults; each is `none` when the key is absent
from that dict (`metrics.get(key, 0.0)` then contributes 0). -/
structure ScenMetrics where
  HOSTILE_f1 : Option ℚ
  accuracy : Option ℚ
  civil_fp_rate : Option ℚ
  deriving DecidableEq

/-- Read of one optional metrics field with the `0.0` default. -/
def objGet (m : Option ScenMetrics) (f : ScenMetrics → Option ℚ) : ℚ :=
  match m with
  | none => 0
  | some mm => (f mm).getD 0

/-- Embedding of `compute_objective_score` (auto_tune.py, lines 47-99):
the metrics mapping is keyed by (scenario, mode) pairs; a key absent from
the mapping contributes 0 for all of its terms. -/
def compute_objective_score (metrics_dict : String × String → Option ScenMetrics) : ℚ :=
  let all_hostile_term : ℚ :=
    match metrics_dict ("all_hostile", "FUSION") with
    | some m => (m.HOSTILE_f1.getD 0) * 1 + (m.accuracy.getD 0) * (3/10)
    | none => 0
  let mixed_civil_term : ℚ :=
    match metrics_dict ("mixed_civil", "FUSION") with
    | some m => (m.HOSTILE_f1.getD 0) * 1 - (m.civil_fp_rate.getD 0) * 2
    | none => 0
  all_hostile_term + mixed_civil_term

/-- C2: compute_objective_score equals
HOSTILE_f1(all_hostile) * 1.0 + accuracy(all_hostile) * 0.3
+ HOSTILE_f1(mixed_civil) * 1.0 - civil_fp_rate(mixed_civil) * 2.0,
with an absent scenario key (and an absent field of a present key)
contributing 0; and holding the mixed_civil entry fixed, raising
HOSTILE_f1(all_hostile) from 0.5 to 0.8 at unchanged accuracy raises the
score by exactly 0.3. -/
theorem c2_objective_formula (md md₁ md₂ : String × String → Option ScenMetrics)
    (m₁ m₂ : ScenMetrics)
    (hfix : md₁ ("mixed_civil", "FUSION") = md₂ ("mixed_civil", "FUSION"))
    (h₁ : md₁ ("all_hostile", "FUSION") = some m₁)
    (h₂ : md₂ ("all_hostile", "FUSION") = some m₂)
    (hacc : m₁.accuracy = m₂.accuracy)
    (hf₁ : m₁.HOSTILE_f1 = some (1/2))
    (hf₂ : m₂.HOSTILE_f1 = some (4/5)) :
    compute_objective_score md
      = objGet (md ("all_hostile", "FUSION")) ScenMetrics.HOSTILE_f1 * 1
        + objGet (md ("all_hostile", "FUSION")) ScenMetrics.accuracy * (3/10)
        + objGet (md ("mixed_civil", "FUSION")) ScenMetrics.HOSTILE_f1 * 1
        - objGet (md ("mixed_civil", "FUSION")) ScenMetrics.civil_fp_rate * 2
    ∧ compute_objective_score md₂ - compute_objective_score md₁ = 3/10 := by
  constructor
  · unfold compute_objective_score objGet
    cases md ("all_hostile", "FUSION") <;> cases md ("mixed_civil", "FUSION") <;>
      (simp; try ring)
  · unfold compute_objective_score
    rw [h₁, h₂, hfix]
    cases md₂ ("mixed_civil", "FUSION") <;> simp [hf₁, hf₂, ← hacc] <;> ring

/-- Witness for C2 at concrete metric mappings: the hypotheses hold for the
two explicit mappings below, and the theorem yields the formula and the
exact 0.3 increase there. -/
def c2md₁ : String × String → Option ScenMetrics := fun k =>
  if k = ("all_hostile", "FUSION") then some ⟨some (1/2), some (9/10), none⟩
  else if k = ("mixed_civil", "FUSION") then some ⟨some (3/5), none, some (1/10)⟩
  else none

/-- Second concrete metrics mapping for the C2 witness: identical to
`c2md₁` except that HOSTILE_f1 of all_hostile is 0.8. -/
def c2md₂ : String × String → Option ScenMetrics := fun k =>
  if k = ("all_hostile", "FUSION") then some ⟨some (4/5), some (9/10), none⟩
  else if k = ("mixed_civil", "FUSION") then some ⟨some (3/5), none, some (1/10)⟩
  else none

/-- Witness theorem for C2: the theorem applied at the concrete mappings. -/
theorem c2_objective_formula_witness :
    compute_objective_score c2md₂ - compute_objective_score c2md₁ = 3/10 :=
  (c2_objective_formula c2md₁ c2md₁ c2md₂
    ⟨some (1/2), some (9/10), none⟩ ⟨some (4/5), some (9/10), none⟩
    rfl rfl rfl rfl rfl rfl).2

/-! ### Claim C10: falsy-fallback field extraction -/

/-- C10 counterexample input: a `fused_track_update` event whose
`threat_score` and `fused_threat_score` fields are both present and 0. -/
def c10ce : FusedFields := ⟨some 0, some 0, none, none, none, none, none⟩

/-- C10 counterexample: the claim says that with `threat_score` present but
0 the used value is the fused field "or None if that is also
absent/falsy"; but for a present-but-zero `fused_threat_score` the code's
`or` yields 0, not None. -/
theorem c10_falsy_fallback_counterexample :
    ¬ (fusedThreatScore c10ce
        = if pyTruthyNum c10ce.fused_threat_score then c10ce.fused_threat_score
          else none) := by
  decide

/-- C10 (amended): for every `fused_track_update` event whose
`threat_score` field is present but 0, the value used for the prediction is
the `fused_threat_score` field verbatim — `none` exactly when that field is
absent, but a present-but-zero fused score is used as 0 (and is then
compared against the threshold); likewise a `class_confidence` of 0 falls
back to the `confidence` entry of `class_info` (with default 0). The built
prediction record carries exactly these fallback values. -/
theorem c10_falsy_fallback (f : FusedFields) :
    (f.threat_score = some 0 → fusedThreatScore f = f.fused_threat_score)
    ∧ (f.class_confidence = some 0 →
        fusedClassConfidence f = some (f.class_info_confidence.getD 0))
    ∧ (∀ labels did p,
        predictionOfEvent labels (LogEvent.fusedTrackUpdate did f) = some p →
        p.threat_score = fusedThreatScore f
          ∧ p.class_confidence = fusedClassConfidence f
          ∧ p.classification = fusedClassification f) := by
  refine ⟨?_, ?_, ?_⟩
  · intro h
    unfold fusedThreatScore pyOrNum pyTruthyNum
    rw [h]
    simp
  · intro h
    unfold fusedClassConfidence pyOrNum pyTruthyNum
    rw [h]
    simp
  · intro labels did p hp
    simp only [predictionOfEvent] at hp
    by_cases hg : pyTruthyStr did = true ∧ (dictLookup labels (did.getD "")).isSome = true
    · rw [if_pos hg] at hp
      cases hp
      exact ⟨rfl, rfl, rfl⟩
    · rw [if_neg hg] at hp
      cases hp

/-- C10 witness input: `threat_score` and `class_confidence` present but 0,
with a truthy fused score and a present nested confidence. -/
def c10w : FusedFields := ⟨some 0, some 55, none, none, some 0, some 1, none⟩

/-- Witness theorem for C10: the amended theorem applied at `c10w`, with
both zero-field hypotheses discharged. -/
theorem c10_falsy_fallback_witness :
    fusedThreatScore c10w = c10w.fused_threat_score
    ∧ fusedClassConfidence c10w = some (c10w.class_info_confidence.getD 0) :=
  ⟨(c10_falsy_fallback c10w).1 rfl, (c10_falsy_fallback c10w).2.1 rfl⟩

/-! ### Counting lemmas for the confusion-matrix identities -/

/-- Partition of a boolean count: counting `A ∧ B` and `¬A ∧ B` adds up to
counting `B`. -/
theorem countP_and_split {α : Type} (l : List α) (A B : α → Bool) :
    l.countP (fun x => A x && B x) + l.countP (fun x => !A x && B x)
      = l.countP B := by
  induction l with
  | nil => rfl
  | cons x xs ih =>
      simp only [List.countP_cons]
      cases hA : A x <;> cases hB : B x <;> simp [hA, hB] <;> omega

/-- Sum of the three reported true positive counts. -/
def tpSum3 (preds : List Prediction) : ℕ :=
  tpCount preds "HOSTILE" + tpCount preds "CIVIL" + tpCount preds "UNKNOWN"

/-- Sum of the three reported false negative counts. -/
def fnSum3 (preds : List Prediction) : ℕ :=
  fnCount preds "HOSTILE" + fnCount preds "CIVIL" + fnCount preds "UNKNOWN"

/-- Sum of the three reported false positive counts. -/
def fpSum3 (preds : List Prediction) : ℕ :=
  fpCount preds "HOSTILE" + fpCount preds "CIVIL" + fpCount preds "UNKNOWN"

/-- TP and FN for one label partition the predictions with that true label. -/
theorem tp_add_fn (preds : List Prediction) (l : String) :
    tpCount preds l + fnCount preds l
      = preds.countP fun p => decide (p.true_label = l) := by
  unfold tpCount fnCount
  exact countP_and_split preds
    (fun p => decide (p.true_label = p.pred_label))
    (fun p => decide (p.true_label = l))

/-- A prediction set whose true labels all lie in the three reported
labels is partitioned by its true label. -/
theorem count_three_true_labels (preds : List Prediction)
    (h : ∀ p ∈ preds, p.true_label ∈ VALID_TRUE_LABELS) :
    (preds.countP fun p => decide (p.true_label = "HOSTILE"))
      + (preds.countP fun p => decide (p.true_label = "CIVIL"))
      + (preds.countP fun p => decide (p.true_label = "UNKNOWN"))
      = preds.length := by
  induction preds with
  | nil => rfl
  | cons p ps ih =>
      have hp := h p (List.mem_cons_self p ps)
      have hps := ih fun q hq => h q (List.mem_cons_of_mem p hq)
      simp only [VALID_TRUE_LABELS, List.mem_cons, List.mem_singleton,
        List.not_mem_nil, or_false] at hp
      simp only [List.countP_cons, List.length_cons]
      rcases hp with h1 | h1 | h1 <;> rw [h1] <;> simp <;> omega

/-! ### Claim C4: confusion-matrix identity -/

/-- Projection of the per-label block: its TP is `tpCount`. -/
theorem labelStats_TP (preds : List Prediction) (l : String) :
    (labelStats preds l).TP = tpCount preds l := rfl

/-- Projection of the per-label block: its FP is `fpCount`. -/
theorem labelStats_FP (preds : List Prediction) (l : String) :
    (labelStats preds l).FP = fpCount preds l := rfl

/-- Projection of the per-label block: its FN is `fnCount`. -/
theorem labelStats_FN (preds : List Prediction) (l : String) :
    (labelStats preds l).FN = fnCount preds l := rfl

/-- Shape of `compute_metrics` on a non-empty input: the reported per-label
blocks and total. -/
theorem compute_metrics_fields (preds : List Prediction) (m : MetricsOut)
    (hm : compute_metrics preds = some m) :
    m.hostileStats = labelStats preds "HOSTILE"
    ∧ m.civilStats = labelStats preds "CIVIL"
    ∧ m.unknownStats = labelStats preds "UNKNOWN"
    ∧ m.total_predictions = preds.length := by
  by_cases hne : preds = []
  · subst hne
    simp [compute_metrics] at hm
  · unfold compute_metrics at hm
    rw [if_neg hne] at hm
    cases hm
    exact ⟨rfl, rfl, rfl, rfl⟩

/-- C4 counterexample input: one prediction whose true label FRIENDLY is
outside the three reported labels (reachable through the per-event
`true_label` override, which is not normalized). -/
def c4ce : List Prediction := [⟨"d1", "FRIENDLY", "UNKNOWN", none, none, none⟩]

/-- C4 counterexample: on `c4ce` the sum of the three reported TP counts
plus the sum of the three reported FN counts is 0, not the
total_predictions 1 — the claimed identity fails for a prediction list
whose true label lies outside the reported labels. -/
theorem c4_confusion_identity_counterexample :
    ∃ m, compute_metrics c4ce = some m
      ∧ m.hostileStats.TP + m.civilStats.TP + m.unknownStats.TP
          + (m.hostileStats.FN + m.civilStats.FN + m.unknownStats.FN)
          ≠ m.total_predictions := by
  refine ⟨_, rfl, ?_⟩
  decide

/-- C4 (amended): for every prediction list whose true labels all lie in
the three reported labels HOSTILE, CIVIL, UNKNOWN, the three reported TP
counts plus the three reported FN counts of compute_metrics sum to
total_predictions (every such prediction is either one TP for its true
label or one FN for its true label plus one FP for its predicted label);
whereas summing TP with FP instead does not equal total_predictions in
general — it fails as soon as a misclassified prediction's predicted label
lies outside the three reported labels. -/
theorem c4_confusion_identity (preds : List Prediction)
    (h : ∀ p ∈ preds, p.true_label ∈ VALID_TRUE_LABELS) :
    tpSum3 preds + fnSum3 preds = preds.length
    ∧ (∀ m, compute_metrics preds = some m →
        m.hostileStats.TP + m.civilStats.TP + m.unknownStats.TP
          + (m.hostileStats.FN + m.civilStats.FN + m.unknownStats.FN)
          = m.total_predictions)
    ∧ (∃ qs : List Prediction,
        (∀ p ∈ qs, p.true_label ∈ VALID_TRUE_LABELS)
        ∧ ∃ m, compute_metrics qs = some m
          ∧ m.hostileStats.TP + m.civilStats.TP + m.unknownStats.TP
              + (m.hostileStats.FP + m.civilStats.FP + m.unknownStats.FP)
              ≠ m.total_predictions) := by
  have hmain : tpSum3 preds + fnSum3 preds = preds.length := by
    have hH := tp_add_fn preds "HOSTILE"
    have hC := tp_add_fn preds "CIVIL"
    have hU := tp_add_fn preds "UNKNOWN"
    have h3 := count_three_true_labels preds h
    unfold tpSum3 fnSum3
    omega
  refine ⟨hmain, ?_, ?_⟩
  · intro m hm
    obtain ⟨e1, e2, e3, e4⟩ := compute_metrics_fields preds m hm
    rw [e1, e2, e3, e4, labelStats_TP, labelStats_TP, labelStats_TP,
      labelStats_FN, labelStats_FN, labelStats_FN]
    exact hmain
  · refine ⟨[⟨"d1", "HOSTILE", "FRIENDLY", none, none, none⟩], by decide, _, rfl, ?_⟩
    decide

/-- C4 witness input: two in-vocabulary predictions, one correct and one
misclassified. -/
def c4w : List Prediction :=
  [⟨"d1", "HOSTILE", "HOSTILE", none, none, none⟩,
   ⟨"d2", "CIVIL", "HOSTILE", none, none, none⟩]

/-- Witness theorem for C4: the label-domain hypothesis holds for `c4w` and
the amended identity follows there from the theorem. -/
theorem c4_confusion_identity_witness :
    (∀ p ∈ c4w, p.true_label ∈ VALID_TRUE_LABELS)
    ∧ tpSum3 c4w + fnSum3 c4w = c4w.length :=
  ⟨by decide, (c4_confusion_identity c4w (by decide)).1⟩

/-! ### Claim C8: empty-input edge case -/

/-- Recognition test of a spawn event (lines 98-105): truthy id, truthy
label, normalized label among the recognized three. Non-spawn events never
contribute a label. -/
def spawnRecognized : LogEvent → Bool
  | .droneSpawned did tl =>
      pyTruthyStr did && pyTruthyStr tl
        && decide (normalizeLabel (tl.getD "") ∈ VALID_TRUE_LABELS)
  | _ => false

/-- A fold of the label extractor over unrecognized events keeps its
accumulator. -/
theorem extract_drone_labels_acc (events : List LogEvent)
    (h : ∀ e ∈ events, spawnRecognized e = false) :
    ∀ acc, events.foldl
      (fun acc e =>
        match e with
        | .droneSpawned did tl =>
            if pyTruthyStr did ∧ pyTruthyStr tl then
              let n := normalizeLabel (tl.getD "")
              if n ∈ VALID_TRUE_LABELS then dictInsert acc (did.getD "") n else acc
            else acc
        | _ => acc)
      acc = acc := by
  induction events with
  | nil => intro acc; rfl
  | cons e es ih =>
      intro acc
      have he := h e (List.mem_cons_self e es)
      have hes := ih fun e' he' => h e' (List.mem_cons_of_mem e he')
      rw [List.foldl_cons]
      cases e with
      | droneSpawned did tl =>
          simp only [spawnRecognized, Bool.and_eq_false_iff] at he
          by_cases h1 : pyTruthyStr did = true ∧ pyTruthyStr tl = true
          · have hn : ¬ (normalizeLabel (tl.getD "") ∈ VALID_TRUE_LABELS) := by
              rcases he with (he | he) | he
              · exact absurd h1.1 (by simp [he])
              · exact absurd h1.2 (by simp [he])
              · simpa using he
            simp only [if_pos h1, if_neg hn]
            exact hes acc
          · simp only [if_neg h1]
            exact hes acc
      | fusedTrackUpdate did f => exact hes acc
      | threatScoreUpdate did t => exact hes acc
      | otherEvent => exact hes acc

/-- Unrecognized spawn labels leave the label table empty. -/
theorem extract_drone_labels_empty (events : List LogEvent)
    (h : ∀ e ∈ events, spawnRecognized e = false) :
    extract_drone_labels events = [] :=
  extract_drone_labels_acc events h []

/-- C8: a log in which no drone has a recognized spawn label yields no
predictions, and compute_metrics on that empty prediction list returns the
distinguished empty object (modelled `none`), whose rates all read as 0
through the callers' defaulting accessor; any non-empty prediction list
instead yields a populated object with total_predictions positive, so the
two cases are distinguishable by the caller. -/
theorem c8_empty_log (events : List LogEvent)
    (h : ∀ e ∈ events, spawnRecognized e = false) :
    extract_predictions_from_log events = []
    ∧ compute_metrics (extract_predictions_from_log events) = none
    ∧ metricsField (compute_metrics (extract_predictions_from_log events))
        MetricsOut.accuracy = 0
    ∧ metricsField (compute_metrics (extract_predictions_from_log events))
        MetricsOut.FP_rate = 0
    ∧ metricsField (compute_metrics (extract_predictions_from_log events))
        MetricsOut.FN_rate = 0
    ∧ metricsField (compute_metrics (extract_predictions_from_log events))
        MetricsOut.civil_fp_rate = 0
    ∧ (∀ preds : List Prediction, preds ≠ [] →
        ∃ m, compute_metrics preds = some m ∧ 0 < m.total_predictions
          ∧ compute_metrics preds ≠ compute_metrics (extract_predictions_from_log events)) := by
  have hempty : extract_predictions_from_log events = [] := by
    unfold extract_predictions_from_log
    rw [extract_drone_labels_empty events h]
    simp
  have hnone : compute_metrics (extract_predictions_from_log events) = none := by
    rw [hempty]
    rfl
  refine ⟨hempty, hnone, by rw [hnone]; rfl, by rw [hnone]; rfl,
    by rw [hnone]; rfl, by rw [hnone]; rfl, ?_⟩
  intro preds hne
  have hsome : ∃ m, compute_metrics preds = some m ∧ m.total_predictions = preds.length := by
    unfold compute_metrics
    rw [if_neg hne]
    exact ⟨_, rfl, rfl⟩
  obtain ⟨m, hm, hlen⟩ := hsome
  refine ⟨m, hm, ?_, ?_⟩
  · rw [hlen]
    exact List.length_pos.mpr hne
  · rw [hm, hnone]
    simp

/-- C8 witness input: one spawn event with the unrecognized label FRIENDLY,
one fused update for that drone, one unrelated event. -/
def c8w : List LogEvent :=
  [.droneSpawned (some "d1") (some "FRIENDLY"),
   .fusedTrackUpdate (some "d1") ⟨some 99, none, none, none, none, none, none⟩,
   .otherEvent]

/-- Witness theorem for C8: the no-recognized-spawn hypothesis holds for
`c8w` and the theorem yields the empty extraction and the empty metrics
marker there. -/
theorem c8_empty_log_witness :
    (∀ e ∈ c8w, spawnRecognized e = false)
    ∧ extract_predictions_from_log c8w = []
    ∧ compute_metrics (extract_predictions_from_log c8w) = none :=
  ⟨by decide, (c8_empty_log c8w (by decide)).1, (c8_empty_log c8w (by decide)).2.1⟩

/-! ### Claim C9: threshold sweep -/

/-- Partition of a boolean count on the right: counting `A ∧ B` and
`A ∧ ¬B` adds up to counting `A`. -/
theorem countP_and_split_right {α : Type} (l : List α) (A B : α → Bool) :
    l.countP (fun x => A x && B x) + l.countP (fun x => A x && !B x)
      = l.countP A := by
  induction l with
  | nil => rfl
  | cons x xs ih =>
      simp only [List.countP_cons]
      cases hA : A x <;> cases hB : B x <;> simp [hA, hB] <;> omega

/-- Descending-score insertion produces a permutation of consing. -/
theorem insertByScoreDesc_perm (p : Prediction) (l : List Prediction) :
    (insertByScoreDesc p l).Perm (p :: l) := by
  induction l with
  | nil => exact List.Perm.refl _
  | cons q qs ih =>
      unfold insertByScoreDesc
      by_cases hcmp : q.threat_score.getD 0 ≥ p.threat_score.getD 0
      · rw [if_pos hcmp]
        exact (ih.cons q).trans (List.Perm.swap p q qs)
      · rw [if_neg hcmp]

/-- The descending-score sort permutes its input. -/
theorem sortByScoreDesc_perm (l : List Prediction) :
    (sortByScoreDesc l).Perm l := by
  induction l with
  | nil => exact List.Perm.refl _
  | cons p ps ih =>
      have : sortByScoreDesc (p :: ps) = insertByScoreDesc p (sortByScoreDesc ps) := rfl
      rw [this]
      exact (insertByScoreDesc_perm p (sortByScoreDesc ps)).trans (ih.cons p)

/-- `sorted_preds` permutes the score-bearing predictions. -/
theorem sorted_preds_perm (preds : List Prediction) :
    (sorted_preds preds).Perm (scoredPredictions preds) :=
  sortByScoreDesc_perm (scoredPredictions preds)

/-- The recomputed binary label is HOSTILE exactly when the raw threat
score reaches the threshold. -/
theorem rocPredLabelAt_hostile_iff (t : ℚ) (p : Prediction) :
    rocPredLabelAt t p = "HOSTILE" ↔ p.threat_score.getD 0 ≥ t := by
  unfold rocPredLabelAt
  by_cases hc : p.threat_score.getD 0 ≥ t
  · simp [hc]
  · simp only [if_neg hc]
    constructor
    · intro habs
      exact absurd habs (by decide)
    · intro habs
      exact absurd habs hc

/-- Per-rung TP and FN partition the predictions with the swept true
label; the partition is independent of the threshold. -/
theorem rocTP_add_rocFN (l : List Prediction) (label : String) (t : ℚ) :
    rocTP l label t + rocFN l label t
      = l.countP fun p => decide (p.true_label = label) :=
  countP_and_split_right l _ _

/-- Per-rung FP and TN partition the predictions whose true label differs
from the swept label. -/
theorem rocFP_add_rocTN (l : List Prediction) (label : String) (t : ℚ) :
    rocFP l label t + rocTN l label t
      = l.countP fun p => !decide (p.true_label = label) :=
  countP_and_split_right l _ _

/-- Raising the threshold can only lose true positives. -/
theorem rocTP_anti (l : List Prediction) (t t' : ℚ) (h : t ≤ t') :
    rocTP l "HOSTILE" t' ≤ rocTP l "HOSTILE" t := by
  apply List.countP_mono_left
  intro p _ hp
  rw [Bool.and_eq_true] at hp
  rw [Bool.and_eq_true]
  refine ⟨hp.1, ?_⟩
  have h2 : rocPredLabelAt t' p = "HOSTILE" := of_decide_eq_true hp.2
  have h3 : p.threat_score.getD 0 ≥ t' := (rocPredLabelAt_hostile_iff t' p).mp h2
  exact decide_eq_true ((rocPredLabelAt_hostile_iff t p).mpr (le_trans h h3))

/-- Raising the threshold can only lose false positives. -/
theorem rocFP_anti (l : List Prediction) (t t' : ℚ) (h : t ≤ t') :
    rocFP l "HOSTILE" t' ≤ rocFP l "HOSTILE" t := by
  apply List.countP_mono_left
  intro p _ hp
  rw [Bool.and_eq_true] at hp
  rw [Bool.and_eq_true]
  refine ⟨hp.1, ?_⟩
  have h2 : rocPredLabelAt t' p = "HOSTILE" := of_decide_eq_true hp.2
  have h3 : p.threat_score.getD 0 ≥ t' := (rocPredLabelAt_hostile_iff t' p).mp h2
  exact decide_eq_true ((rocPredLabelAt_hostile_iff t p).mpr (le_trans h h3))

/-- TPR of the emitted ROC points is antitone in the threshold. -/
theorem tpr_anti (l : List Prediction) (t t' : ℕ) (h : t ≤ t') :
    (rocPointAt l "HOSTILE" t').tpr ≤ (rocPointAt l "HOSTILE" t).tpr := by
  have hq : (t : ℚ) ≤ (t' : ℚ) := by exact_mod_cast h
  have hP := rocTP_add_rocFN l "HOSTILE" (t : ℚ)
  have hP' := rocTP_add_rocFN l "HOSTILE" (t' : ℚ)
  set P := l.countP fun p => decide (p.true_label = "HOSTILE") with hPdef
  simp only [rocPointAt]
  rw [hP, hP']
  have hcast : ((rocTP l "HOSTILE" (t : ℚ) : ℚ) + (rocFN l "HOSTILE" (t : ℚ) : ℚ)) = (P : ℚ) := by
    exact_mod_cast hP
  have hcast' : ((rocTP l "HOSTILE" (t' : ℚ) : ℚ) + (rocFN l "HOSTILE" (t' : ℚ) : ℚ)) = (P : ℚ) := by
    exact_mod_cast hP'
  rw [hcast, hcast']
  by_cases hP0 : P > 0
  · rw [if_pos hP0, if_pos hP0]
    apply div_le_div_of_nonneg_right ?_ ?_
    · exact_mod_cast rocTP_anti l (t : ℚ) (t' : ℚ) hq
    · positivity
  · rw [if_neg hP0, if_neg hP0]

/-- FPR of the emitted ROC points is antitone in the threshold. -/
theorem fpr_anti (l : List Prediction) (t t' : ℕ) (h : t ≤ t') :
    (rocPointAt l "HOSTILE" t').fpr ≤ (rocPointAt l "HOSTILE" t).fpr := by
  have hq : (t : ℚ) ≤ (t' : ℚ) := by exact_mod_cast h
  have hN := rocFP_add_rocTN l "HOSTILE" (t : ℚ)
  have hN' := rocFP_add_rocTN l "HOSTILE" (t' : ℚ)
  set N := l.countP fun p => !decide (p.true_label = "HOSTILE") with hNdef
  simp only [rocPointAt]
  rw [hN, hN']
  have hcast : ((rocFP l "HOSTILE" (t : ℚ) : ℚ) + (rocTN l "HOSTILE" (t : ℚ) : ℚ)) = (N : ℚ) := by
    exact_mod_cast hN
  have hcast' : ((rocFP l "HOSTILE" (t' : ℚ) : ℚ) + (rocTN l "HOSTILE" (t' : ℚ) : ℚ)) = (N : ℚ) := by
    exact_mod_cast hN'
  rw [hcast, hcast']
  by_cases hN0 : N > 0
  · rw [if_pos hN0, if_pos hN0]
    apply div_le_div_of_nonneg_right ?_ ?_
    · exact_mod_cast rocFP_anti l (t : ℚ) (t' : ℚ) hq
    · positivity
  · rw [if_neg hN0, if_neg hN0]

/-- Replace the primary-rule outputs of a prediction (its pred_label,
classification and class_confidence), keeping the true label and the raw
threat score. -/
def setClassFields (pl : String) (c : Option String) (cc : Option ℚ)
    (p : Prediction) : Prediction :=
  ⟨p.drone_id, p.true_label, pl, p.threat_score, c, cc⟩

/-- Counting is unchanged by a map the counted predicate ignores. -/
theorem countP_map_invariant (f : Prediction → Prediction) (q : Prediction → Bool)
    (hq : ∀ p, q (f p) = q p) (l : List Prediction) :
    (l.map f).countP q = l.countP q := by
  induction l with
  | nil => rfl
  | cons p ps ih => simp only [List.map_cons, List.countP_cons, hq, ih]

/-- The threat-score filter commutes with a map preserving threat scores. -/
theorem scoredPredictions_map (f : Prediction → Prediction)
    (hf : ∀ p, (f p).threat_score = p.threat_score) (preds : List Prediction) :
    scoredPredictions (preds.map f) = (scoredPredictions preds).map f := by
  induction preds with
  | nil => rfl
  | cons p ps ih =>
      unfold scoredPredictions at ih ⊢
      simp only [List.map_cons, List.filter_cons, hf]
      cases hc : p.threat_score.isSome with
      | false => simp [hc, ih]
      | true => simp [hc, ih]

/-- Descending-score insertion commutes with a map preserving threat
scores. -/
theorem insertByScoreDesc_map (f : Prediction → Prediction)
    (hf : ∀ p, (f p).threat_score = p.threat_score)
    (p : Prediction) (l : List Prediction) :
    insertByScoreDesc (f p) (l.map f) = (insertByScoreDesc p l).map f := by
  induction l with
  | nil => rfl
  | cons q qs ih =>
      simp only [List.map_cons]
      unfold insertByScoreDesc
      rw [hf q, hf p]
      by_cases hcmp : q.threat_score.getD 0 ≥ p.threat_score.getD 0
      · rw [if_pos hcmp, if_pos hcmp, List.map_cons, ih]
      · rw [if_neg hcmp, if_neg hcmp]
        rfl

/-- The descending-score sort commutes with a map preserving threat
scores. -/
theorem sortByScoreDesc_map (f : Prediction → Prediction)
    (hf : ∀ p, (f p).threat_score = p.threat_score) (l : List Prediction) :
    sortByScoreDesc (l.map f) = (sortByScoreDesc l).map f := by
  induction l with
  | nil => rfl
  | cons p ps ih =>
      show insertByScoreDesc (f p) (sortByScoreDesc (ps.map f))
        = (insertByScoreDesc p (sortByScoreDesc ps)).map f
      rw [ih, insertByScoreDesc_map f hf]

/-- The ROC point of one rung ignores pred_label, classification and
class_confidence. -/
theorem rocPointAt_map (pl : String) (c : Option String) (cc : Option ℚ)
    (l : List Prediction) (label : String) (t : ℕ) :
    rocPointAt (l.map (setClassFields pl c cc)) label t = rocPointAt l label t := by
  unfold rocPointAt rocTP rocFP rocFN rocTN
  rw [countP_map_invariant (setClassFields pl c cc)
      (fun p => decide (p.true_label = label) && decide (rocPredLabelAt (t : ℚ) p = label))
      (fun p => rfl),
    countP_map_invariant (setClassFields pl c cc)
      (fun p => !decide (p.true_label = label) && decide (rocPredLabelAt (t : ℚ) p = label))
      (fun p => rfl),
    countP_map_invariant (setClassFields pl c cc)
      (fun p => decide (p.true_label = label) && !decide (rocPredLabelAt (t : ℚ) p = label))
      (fun p => rfl),
    countP_map_invariant (setClassFields pl c cc)
      (fun p => !decide (p.true_label = label) && !decide (rocPredLabelAt (t : ℚ) p = label))
      (fun p => rfl)]

/-- The PR point of one rung ignores pred_label, classification and
class_confidence. -/
theorem prPointAt_map (pl : String) (c : Option String) (cc : Option ℚ)
    (l : List Prediction) (label : String) (t : ℕ) :
    prPointAt (l.map (setClassFields pl c cc)) label t = prPointAt l label t := by
  unfold prPointAt rocTP rocFP rocFN
  rw [countP_map_invariant (setClassFields pl c cc)
      (fun p => decide (p.true_label = label) && decide (rocPredLabelAt (t : ℚ) p = label))
      (fun p => rfl),
    countP_map_invariant (setClassFields pl c cc)
      (fun p => !decide (p.true_label = label) && decide (rocPredLabelAt (t : ℚ) p = label))
      (fun p => rfl),
    countP_map_invariant (setClassFields pl c cc)
      (fun p => decide (p.true_label = label) && !decide (rocPredLabelAt (t : ℚ) p = label))
      (fun p => rfl)]

/-- The whole sweep ignores pred_label, classification and
class_confidence: it consults only true_label and the raw threat_score. -/
theorem compute_roc_pr_data_map (pl : String) (c : Option String) (cc : Option ℚ)
    (preds : List Prediction) (label : String) :
    compute_roc_pr_data (preds.map (setClassFields pl c cc)) label
      = compute_roc_pr_data preds label := by
  unfold compute_roc_pr_data
  have hsp : sorted_preds (preds.map (setClassFields pl c cc))
      = (sorted_preds preds).map (setClassFields pl c cc) := by
    unfold sorted_preds
    rw [scoredPredictions_map (setClassFields pl c cc) (fun p => rfl),
      sortByScoreDesc_map (setClassFields pl c cc) (fun p => rfl)]
  rw [hsp]
  by_cases hs : sorted_preds preds = []
  · rw [hs]
    simp
  · rw [if_neg (by simpa using hs), if_neg hs]
    have hroc : rocPointAt ((sorted_preds preds).map (setClassFields pl c cc)) label
        = rocPointAt (sorted_preds preds) label := by
      funext t
      exact rocPointAt_map pl c cc (sorted_preds preds) label t
    have hpr : prPointAt ((sorted_preds preds).map (setClassFields pl c cc)) label
        = prPointAt (sorted_preds preds) label := by
      funext t
      exact prPointAt_map pl c cc (sorted_preds preds) label t
    rw [hroc, hpr]

/-- C9 counterexample: on an input with no score-bearing prediction the
function returns early with empty point lists — it does not evaluate the
21 thresholds there. -/
theorem c9_threshold_sweep_counterexample :
    (compute_roc_pr_data [] "HOSTILE").roc_points.map RocPoint.threshold
      ≠ rocThresholds
    ∧ (compute_roc_pr_data [] "HOSTILE").roc_points.length = 0 := by
  decide

/-- C9 (amended): whenever at least one prediction carries a non-None
threat score, compute_roc_pr_data emits exactly the 21 thresholds
0, 5, ..., 100 (on both the ROC and the PR lists); the swept population is
exactly the predictions with a non-None threat score; each rung
reclassifies a prediction as HOSTILE iff its raw threat_score reaches the
threshold; the output ignores the primary rule's outputs (pred_label,
classification, class_confidence) entirely; and the emitted TPR and FPR
sequences are monotonically non-increasing in the threshold. Without a
score-bearing prediction the function instead returns empty point lists
(see the counterexample). -/
theorem c9_threshold_sweep (preds : List Prediction)
    (h : sorted_preds preds ≠ []) :
    (compute_roc_pr_data preds "HOSTILE").roc_points.map RocPoint.threshold
      = rocThresholds
    ∧ (compute_roc_pr_data preds "HOSTILE").roc_points.length = 21
    ∧ (compute_roc_pr_data preds "HOSTILE").pr_points.map PrPoint.threshold
      = rocThresholds
    ∧ (sorted_preds preds).Perm (preds.filter fun p => p.threat_score.isSome)
    ∧ (∀ t : ℚ, ∀ p ∈ sorted_preds preds,
        (rocPredLabelAt t p = "HOSTILE" ↔ p.threat_score.getD 0 ≥ t))
    ∧ (∀ pl c cc, compute_roc_pr_data (preds.map (setClassFields pl c cc)) "HOSTILE"
        = compute_roc_pr_data preds "HOSTILE")
    ∧ List.Pairwise (fun a b => b.tpr ≤ a.tpr ∧ b.fpr ≤ a.fpr)
        (compute_roc_pr_data preds "HOSTILE").roc_points := by
  have hdata : compute_roc_pr_data preds "HOSTILE"
      = ⟨rocThresholds.map (rocPointAt (sorted_preds preds) "HOSTILE"),
         rocThresholds.map (prPointAt (sorted_preds preds) "HOSTILE")⟩ := by
    unfold compute_roc_pr_data
    rw [if_neg h]
  refine ⟨?_, ?_, ?_, sorted_preds_perm preds, ?_, ?_, ?_⟩
  · rw [hdata]
    simp only [List.map_map]
    have : (RocPoint.threshold ∘ rocPointAt (sorted_preds preds) "HOSTILE")
        = fun t => t := rfl
    rw [this, List.map_id']
  · rw [hdata]
    simp [rocThresholds]
  · rw [hdata]
    simp only [List.map_map]
    have : (PrPoint.threshold ∘ prPointAt (sorted_preds preds) "HOSTILE")
        = fun t => t := rfl
    rw [this, List.map_id']
  · intro t p _
    exact rocPredLabelAt_hostile_iff t p
  · intro pl c cc
    exact compute_roc_pr_data_map pl c cc preds "HOSTILE"
  · rw [hdata]
    simp only [List.pairwise_map, rocThresholds]
    apply (List.pairwise_lt_range 21).imp
    intro i j hij
    have h5 : i * 5 ≤ j * 5 := Nat.mul_le_mul_right 5 (le_of_lt hij)
    exact ⟨tpr_anti (sorted_preds preds) (i * 5) (j * 5) h5,
      fpr_anti (sorted_preds preds) (i * 5) (j * 5) h5⟩

/-- C9 witness input: two scored predictions. -/
def c9w : List Prediction :=
  [⟨"d1", "HOSTILE", "HOSTILE", some 80, none, none⟩,
   ⟨"d2", "CIVIL", "UNKNOWN", some 10, none, none⟩]

/-- Witness theorem for C9: `c9w` satisfies the non-empty hypothesis and
the theorem yields the full 21-rung threshold ladder there. -/
theorem c9_threshold_sweep_witness :
    sorted_preds c9w ≠ []
    ∧ (compute_roc_pr_data c9w "HOSTILE").roc_points.map RocPoint.threshold
      = rocThresholds :=
  ⟨by decide, (c9_threshold_sweep c9w (by decide)).1⟩

/-! ### auto_tune.py: the best-tracking search loop (claim C3) -/

/-- One history record appended by `run_auto_tune` (auto_tune.py, lines
328-333): the 1-based trial number, the sampled parameters and the
objective score. The recorded metrics ride along with the parameters and
are abstracted into the parameter type `α`. -/
structure TrialRecord (α : Type) where
  trial : ℕ
  params : α
  score : ℚ

/-- Outcome of the externally-driven part of one trial iteration: the
evaluation subprocess fails (line 303), the analysis fails or produces an
empty metrics mapping (line 311), or both succeed and scoring yields an
objective score (line 317). -/
inductive TrialOutcome (α : Type) where
  | evalFailure
  | analysisFailure
  | success (params : α) (score : ℚ)

/-- Loop state of `run_auto_tune` (lines 279-282): trials attempted so
far, the history list, and the tracked best. The initial Python
`best_score` is float minus-infinity and `best_params` is None; the
minus-infinity sentinel is modelled as `none`. -/
structure TuneState (α : Type) where
  trialsDone : ℕ
  history : List (TrialRecord α)
  best_score : Option ℚ
  best_params : Option α

/-- The strict comparison `score > best_score` of line 321, where the
initial minus-infinity best is beaten by every score. -/
def bestBeaten (best : Option ℚ) (s : ℚ) : Bool :=
  match best with
  | none => true
  | some b => decide (b < s)

/-- One iteration of the trial loop (lines 287-341) restricted to the
search state: failures advance the trial index only; a success appends one
record and replaces the best on strict improvement. -/
def tuneStep {α : Type} (st : TuneState α) (o : TrialOutcome α) : TuneState α :=
  match o with
  | .evalFailure => ⟨st.trialsDone + 1, st.history, st.best_score, st.best_params⟩
  | .analysisFailure => ⟨st.trialsDone + 1, st.history, st.best_score, st.best_params⟩
  | .success p s =>
      ⟨st.trialsDone + 1,
       st.history ++ [⟨st.trialsDone + 1, p, s⟩],
       if bestBeaten st.best_score s then some s else st.best_score,
       if bestBeaten st.best_score s then some p else st.best_params⟩

/-- The state before the first trial. -/
def initialTuneState {α : Type} : TuneState α := ⟨0, [], none, none⟩

/-- The search loop of `run_auto_tune` over a given sequence of trial
outcomes. -/
def run_auto_tune_model {α : Type} (outcomes : List (TrialOutcome α)) :
    TuneState α :=
  outcomes.foldl tuneStep initialTuneState

/-- Parameters and scores of the successful outcomes, in order. -/
def successRecords {α : Type} (outcomes : List (TrialOutcome α)) : List (α × ℚ) :=
  outcomes.filterMap fun o =>
    match o with
    | .success p s => some (p, s)
    | _ => none

/-- Maximum of a rational list, `none` on the empty list. -/
def listMax? : List ℚ → Option ℚ
  | [] => none
  | x :: xs =>
      match listMax? xs with
      | none => some x
      | some m => some (max x m)

/-- Fold one more element into an optional running maximum. -/
def pushMax (o : Option ℚ) (x : ℚ) : ℚ :=
  match o with
  | none => x
  | some m => max m x

/-- The optional maximum is `none` exactly on the empty list. -/
theorem listMax?_eq_none_iff (l : List ℚ) : listMax? l = none ↔ l = [] := by
  cases l with
  | nil => simp [listMax?]
  | cons x xs =>
      simp only [listMax?]
      constructor
      · intro h
        cases hys : listMax? xs with
        | none => simp [hys] at h
        | some m => simp [hys] at h
      · intro h
        simp at h

/-- The optional maximum bounds every member. -/
theorem listMax?_le (l : List ℚ) (m : ℚ) (hm : listMax? l = some m) :
    ∀ x ∈ l, x ≤ m := by
  induction l generalizing m with
  | nil => simp [listMax?] at hm
  | cons y ys ih =>
      intro x hx
      simp only [listMax?] at hm
      cases hys : listMax? ys with
      | none =>
          rw [hys] at hm
          cases hm
          have : ys = [] := (listMax?_eq_none_iff ys).mp hys
          subst this
          rcases List.mem_singleton.mp hx with rfl
          exact le_refl _
      | some m' =>
          rw [hys] at hm
          cases hm
          rcases List.mem_cons.mp hx with rfl | h
          · exact le_max_left _ _
          · exact le_trans (ih m' hys x h) (le_max_right _ _)

/-- Appending one element pushes it into the optional maximum. -/
theorem listMax?_concat (l : List ℚ) (x : ℚ) :
    listMax? (l ++ [x]) = some (pushMax (listMax? l) x) := by
  induction l with
  | nil => simp [listMax?, pushMax]
  | cons y ys ih =>
      simp only [List.cons_append, listMax?, List.append_eq]
      rw [ih]
      cases hys : listMax? ys with
      | none => simp [hys, pushMax]
      | some m => simp [hys, pushMax, max_assoc]

/-- Concatenating one outcome appends its success record, if any. -/
theorem successRecords_concat {α : Type} (outs : List (TrialOutcome α))
    (o : TrialOutcome α) :
    successRecords (outs ++ [o]) = successRecords outs ++ successRecords [o] := by
  unfold successRecords
  rw [List.filterMap_append]

/-- Best-tracking invariant of the loop state after a given outcome
sequence: the trial index counts every attempt; history holds exactly the
successes in order with trial numbers within bounds; the tracked best
score is the maximum over history; the best is empty exactly when history
is; and the tracked best pair is the earliest history record attaining the
maximum (all strictly smaller before it — ties keep the earlier best). -/
def TuneInv {α : Type} (outcomes : List (TrialOutcome α)) (st : TuneState α) : Prop :=
  st.trialsDone = outcomes.length
  ∧ st.history.map (fun r => (r.params, r.score)) = successRecords outcomes
  ∧ (∀ r ∈ st.history, r.trial ≤ st.trialsDone)
  ∧ st.best_score = listMax? (st.history.map TrialRecord.score)
  ∧ (st.best_params = none ↔ st.history = [])
  ∧ (st.best_score = none ↔ st.history = [])
  ∧ (∀ s p, st.best_score = some s → st.best_params = some p →
      ∃ pre r post, st.history = pre ++ r :: post
        ∧ r.score = s ∧ r.params = p ∧ ∀ q ∈ pre, q.score < s)

/-- One loop iteration preserves the best-tracking invariant. -/
theorem tuneStep_inv {α : Type} (outs : List (TrialOutcome α)) (o : TrialOutcome α)
    (st : TuneState α) (ih : TuneInv outs st) : TuneInv (outs ++ [o]) (tuneStep st o) := by
  obtain ⟨h1, h2, h3, h4, h5, h6, h7⟩ := ih
  cases o with
  | evalFailure =>
      refine ⟨?_, ?_, ?_, h4, h5, h6, h7⟩
      · simp [tuneStep, h1]
      · rw [successRecords_concat,
          show successRecords [TrialOutcome.evalFailure] = ([] : List (α × ℚ)) from rfl,
          List.append_nil]
        exact h2
      · intro r hr
        exact le_trans (h3 r hr) (Nat.le_succ _)
  | analysisFailure =>
      refine ⟨?_, ?_, ?_, h4, h5, h6, h7⟩
      · simp [tuneStep, h1]
      · rw [successRecords_concat,
          show successRecords [TrialOutcome.analysisFailure] = ([] : List (α × ℚ)) from rfl,
          List.append_nil]
        exact h2
      · intro r hr
        exact le_trans (h3 r hr) (Nat.le_succ _)
  | success p s =>
      have hne : st.history ++ [(⟨st.trialsDone + 1, p, s⟩ : TrialRecord α)] ≠ [] := by
        simp
      have hmax' : listMax?
          ((st.history ++ [(⟨st.trialsDone + 1, p, s⟩ : TrialRecord α)]).map
            TrialRecord.score)
          = some (pushMax st.best_score s) := by
        rw [List.map_append]
        rw [show List.map TrialRecord.score [(⟨st.trialsDone + 1, p, s⟩ : TrialRecord α)]
          = [s] from rfl]
        rw [listMax?_concat, ← h4]
      have hparams : (if bestBeaten st.best_score s then some p else st.best_params)
          ≠ none := by
        cases hbb : bestBeaten st.best_score s with
        | false =>
            rw [if_neg (by simp [hbb])]
            intro hcon
            have hh : st.history = [] := h5.mp hcon
            have hs0 : st.best_score = none := h6.mpr hh
            rw [hs0] at hbb
            simp [bestBeaten] at hbb
        | true =>
            rw [if_pos (by simp [hbb])]
            simp
      have hscore : (if bestBeaten st.best_score s then some s else st.best_score)
          ≠ none := by
        cases hbb : bestBeaten st.best_score s with
        | false =>
            rw [if_neg (by simp [hbb])]
            intro hcon
            rw [hcon] at hbb
            simp [bestBeaten] at hbb
        | true =>
            rw [if_pos (by simp [hbb])]
            simp
      refine ⟨?_, ?_, ?_, ?_, ?_, ?_, ?_⟩
      · simp [tuneStep, h1]
      · show (st.history ++ [(⟨st.trialsDone + 1, p, s⟩ : TrialRecord α)]).map
            (fun r => (r.params, r.score))
          = successRecords (outs ++ [TrialOutcome.success p s])
        rw [List.map_append, h2, successRecords_concat]
        rfl
      · intro r hr
        rcases List.mem_append.mp hr with hr | hr
        · exact le_trans (h3 r hr) (Nat.le_succ _)
        · rcases List.mem_singleton.mp hr with rfl
          exact le_refl _
      · show (if bestBeaten st.best_score s then some s else st.best_score)
          = listMax? ((st.history ++ [(⟨st.trialsDone + 1, p, s⟩ : TrialRecord α)]).map
              TrialRecord.score)
        rw [hmax']
        cases hsb : st.best_score with
        | none => simp [bestBeaten, pushMax]
        | some bs =>
            by_cases hlt : bs < s
            · simp [bestBeaten, pushMax, hlt, max_eq_right (le_of_lt hlt)]
            · simp [bestBeaten, pushMax, hlt, max_eq_left (not_lt.mp hlt)]
      · show (if bestBeaten st.best_score s then some p else st.best_params) = none
          ↔ st.history ++ [(⟨st.trialsDone + 1, p, s⟩ : TrialRecord α)] = []
        simp [hparams, hne]
      · show (if bestBeaten st.best_score s then some s else st.best_score) = none
          ↔ st.history ++ [(⟨st.trialsDone + 1, p, s⟩ : TrialRecord α)] = []
        simp [hscore, hne]
      · intro s₀ p₀ hs₀ hp₀
        simp only [tuneStep] at hs₀ hp₀
        show ∃ pre r post,
          st.history ++ [(⟨st.trialsDone + 1, p, s⟩ : TrialRecord α)] = pre ++ r :: post
            ∧ r.score = s₀ ∧ r.params = p₀ ∧ ∀ q ∈ pre, q.score < s₀
        by_cases hbb : bestBeaten st.best_score s = true
        · rw [if_pos hbb] at hs₀
          rw [if_pos hbb] at hp₀
          have hs : s₀ = s := (Option.some.inj hs₀).symm
          have hp : p₀ = p := (Option.some.inj hp₀).symm
          rw [hs, hp]
          cases hsb : st.best_score with
          | none =>
              have hh : st.history = [] := h6.mp hsb
              refine ⟨[], ⟨st.trialsDone + 1, p, s⟩, [], ?_, rfl, rfl, by simp⟩
              rw [hh]
          | some bs =>
              have hlmax : listMax? (st.history.map TrialRecord.score) = some bs := by
                rw [← h4, hsb]
              have hbs_lt : bs < s := by
                rw [hsb] at hbb
                simpa [bestBeaten] using hbb
              refine ⟨st.history, ⟨st.trialsDone + 1, p, s⟩, [], by simp, rfl, rfl, ?_⟩
              intro q hq
              have hqs : q.score ≤ bs :=
                listMax?_le _ bs hlmax q.score (List.mem_map_of_mem TrialRecord.score hq)
              exact lt_of_le_of_lt hqs hbs_lt
        · rw [if_neg hbb] at hs₀
          rw [if_neg hbb] at hp₀
          obtain ⟨pre, r, post, hdecomp, hrs, hrp, hpre⟩ := h7 s₀ p₀ hs₀ hp₀
          refine ⟨pre, r, post ++ [⟨st.trialsDone + 1, p, s⟩], ?_, hrs, hrp, hpre⟩
          rw [hdecomp]
          simp

/-- C3: after any number of trial iterations of run_auto_tune, the tracked
best score equals the maximum of the scores of the records appended to
history; failed trials are never appended and never become best while the
trial index still advances (the trial counter counts every outcome and
history carries exactly the successes, with in-range trial numbers);
best_params is None iff history is empty; and the best is replaced only on
strict improvement, so the tracked best pair is the earliest history
record attaining the maximum (ties keep the earlier best). -/
theorem c3_best_tracking {α : Type} (outcomes : List (TrialOutcome α)) :
    TuneInv outcomes (run_auto_tune_model outcomes) := by
  induction outcomes using List.reverseRecOn with
  | nil =>
      refine ⟨rfl, rfl, by simp [initialTuneState, run_auto_tune_model], rfl,
        by simp [initialTuneState, run_auto_tune_model],
        by simp [initialTuneState, run_auto_tune_model], ?_⟩
      intro s p hs _
      exact absurd hs (by simp [initialTuneState, run_auto_tune_model])
  | append_singleton outs o ih =>
      have hrun : run_auto_tune_model (outs ++ [o])
          = tuneStep (run_auto_tune_model outs) o := by
        unfold run_auto_tune_model
        rw [List.foldl_append]
        rfl
      rw [hrun]
      exact tuneStep_inv outs o (run_auto_tune_model outs) ih

/-- C3 witness input: five outcomes with two failures interleaved, a tied
score and a later strict improvement. -/
def c3outs : List (TrialOutcome ℕ) :=
  [.success 7 10, .evalFailure, .success 8 10, .analysisFailure, .success 9 12]

/-- Witness theorem for C3: the invariant instantiated at the concrete
outcome sequence `c3outs`. -/
theorem c3_best_tracking_witness :
    TuneInv c3outs (run_auto_tune_model c3outs) :=
  c3_best_tracking c3outs

/-! ### auto_tune.py: runtime-parameter-file lifecycle of one trial (claim C7) -/

/-- Effect of `save_runtime_params` (lines 106-113) on the existence of
`runtime_params.json`: after writing, the file exists. -/
def save_runtime_params_file (_fileExists : Bool) : Bool := true

/-- Effect of `clear_runtime_params` (lines 116-119): the file is removed
when present, so afterwards it does not exist. -/
def clear_runtime_params_file (_fileExists : Bool) : Bool := false

/-- The checkpoint condition of line 336: `(trial + 1) % 10 == 0`, with
`trial` the 0-based loop index. -/
def checkpointDue (trial : ℕ) : Bool := decide ((trial + 1) % 10 = 0)

/-- How one trial iteration ends: does the parameter file still exist, and
did an exception escape the iteration. -/
structure TrialFileExit where
  fileExists : Bool
  raised : Bool
  deriving DecidableEq

/-- Parameter-file lifecycle of iteration `trial` of the loop of
`run_auto_tune` (lines 287-341), by explicit state passing over the
file-existence flag. `run_evaluation` and `run_analysis` catch their own
exceptions and report plain success flags (an empty metrics mapping counts
as analysis failure via `if not metrics`); scoring, best update and
history append are pure; `save_history` performs unguarded file writes, so
its failure propagates as an exception — there is no try/finally around
the iteration body. -/
def trialIterationFile (trial : ℕ) (evalOk analysisOk saveHistoryOk : Bool)
    (file0 : Bool) : TrialFileExit :=
  -- step 2 (line 300): save_runtime_params
  let f1 := save_runtime_params_file file0
  -- step 3 (lines 303-306): evaluation failure clears the file and continues
  if !evalOk then ⟨clear_runtime_params_file f1, false⟩
  -- step 4 (lines 309-314): analysis failure clears the file and continues
  else if !analysisOk then ⟨clear_runtime_params_file f1, false⟩
  -- step 8 (lines 336-338): an exception in save_history escapes with the
  -- file still in place
  else if checkpointDue trial && !saveHistoryOk then ⟨f1, true⟩
  -- step 9 (line 341): clear_runtime_params on normal completion
  else ⟨clear_runtime_params_file f1, false⟩

/-- C7 counterexample: at trial index 9 (the tenth trial, checkpoint due)
with successful evaluation and analysis but a failing checkpoint write,
the iteration exits with the parameter file still present — the claimed
cleanup on the checkpointing failure path does not hold. -/
theorem c7_cleanup_counterexample :
    ¬ ((trialIterationFile 9 true true false false).fileExists = false) := by
  decide

/-- C7 (amended): every trial iteration that ends without an escaping
exception — the evaluation-failure path, the analysis-failure path and the
normal completion path — removes the persisted parameter file; the file
survives the iteration exactly when evaluation and analysis succeed, a
checkpoint is due and the checkpoint write raises, and that is also
exactly when an exception escapes the iteration. -/
theorem c7_cleanup (trial : ℕ) (evalOk analysisOk saveHistoryOk file0 : Bool) :
    ((trialIterationFile trial evalOk analysisOk saveHistoryOk file0).raised = false →
      (trialIterationFile trial evalOk analysisOk saveHistoryOk file0).fileExists = false)
    ∧ ((trialIterationFile trial evalOk analysisOk saveHistoryOk file0).fileExists = true
        ↔ evalOk = true ∧ analysisOk = true ∧ checkpointDue trial = true
          ∧ saveHistoryOk = false)
    ∧ (trialIterationFile trial evalOk analysisOk saveHistoryOk file0).raised
      = (trialIterationFile trial evalOk analysisOk saveHistoryOk file0).fileExists := by
  cases hc : checkpointDue trial <;> cases evalOk <;> cases analysisOk <;>
    cases saveHistoryOk <;>
      simp [trialIterationFile, save_runtime_params_file, clear_runtime_params_file, hc]

/-- Witness theorem for C7: the amended theorem applied at a concrete
non-checkpoint iteration, with the no-exception hypothesis discharged. -/
theorem c7_cleanup_witness :
    (trialIterationFile 3 true true true false).raised = false
    ∧ (trialIterationFile 3 true true true false).fileExists = false :=
  ⟨by decide, (c7_cleanup 3 true true true false).1 (by decide)⟩

/-! ### auto_tuning_config.py: parameter space and sampling (claims C5, C6) -/

/-- A seeded pseudo-random source: the deterministic stream of
unit-interval variates it will produce, and how many have been consumed.
`random.Random(seed)` yields such a stream as a pure function of the seed. -/
structure Rng where
  stream : ℕ → ℚ
  pos : ℕ

/-- Draw the next variate (`rng.random()`), advancing the source. -/
def rngNext (r : Rng) : ℚ × Rng :=
  (r.stream r.pos, ⟨r.stream, r.pos + 1⟩)

/-- `rng.uniform(lo, hi) = lo + (hi - lo) * rng.random()`, the sampling of
one continuous parameter (auto_tuning_config.py, lines 63-65). -/
def uniformSample (lo hi : ℚ) (r : Rng) : ℚ × Rng :=
  let u := rngNext r
  (lo + (hi - lo) * u.1, u.2)

/-- The search space `ParamSpace` (auto_tuning_config.py, lines 15-46):
each field is a continuous `(min, max)` range. -/
structure ParamSpace where
  threat_engage_threshold : ℚ × ℚ
  threat_abort_threshold : ℚ × ℚ
  civil_conf_threshold : ℚ × ℚ
  pn_nav_constant : ℚ × ℚ
  pn_max_turn_rate : ℚ × ℚ
  pn_min_closing_speed : ℚ × ℚ
  interceptor_turn_rate_multiplier : ℚ × ℚ
  sensor_radar_weight : ℚ × ℚ
  sensor_audio_weight : ℚ × ℚ
  sensor_eo_weight : ℚ × ℚ
  threat_weight_existence : ℚ × ℚ
  threat_weight_classification : ℚ × ℚ
  threat_weight_distance : ℚ × ℚ
  threat_weight_velocity : ℚ × ℚ
  threat_weight_behavior : ℚ × ℚ
  threat_weight_armed : ℚ × ℚ
  threat_weight_heading : ℚ × ℚ

/-- `DEFAULT_PARAM_SPACE = ParamSpace()` (line 132) with the declared
default ranges; 0.05 = 1/20, 0.08 = 2/25, 0.12 = 3/25, 0.15 = 3/20,
0.25 = 1/4. -/
def DEFAULT_PARAM_SPACE : ParamSpace :=
  ⟨(55, 85), (30, 50), (1/2, 9/10), (2, 9/2), (2, 5), (5, 15), (4/5, 13/10),
   (2/5, 7/10), (1/10, 3/10), (7/10, 1),
   (1/10, 1/5), (1/5, 3/10), (3/20, 1/4), (1/10, 3/20), (1/20, 1/10),
   (2/25, 3/25), (2/25, 3/25)⟩

/-- The normalized threat-score weight group (the `threat_weights` dict of
lines 88-100, in its declared key order). -/
structure ThreatWeights where
  existence : ℚ
  classification : ℚ
  distance : ℚ
  velocity : ℚ
  behavior : ℚ
  armed : ℚ
  heading : ℚ

/-- Sum of the weight group's values. -/
def ThreatWeights.sum (w : ThreatWeights) : ℚ :=
  w.existence + w.classification + w.distance + w.velocity + w.behavior
    + w.armed + w.heading

/-- The parameter dictionary returned by `sample_params`
(lines 102-125). -/
structure SampledParams where
  threat_engage_threshold : ℚ
  threat_abort_threshold : ℚ
  civil_conf_threshold : ℚ
  pn_nav_constant : ℚ
  pn_max_turn_rate : ℚ
  pn_min_closing_speed : ℚ
  interceptor_turn_rate_multiplier : ℚ
  sensor_radar_weight : ℚ
  sensor_audio_weight : ℚ
  sensor_eo_weight : ℚ
  threat_weights : ThreatWeights

/-- Python `round(x, ndigits)`, modelled as exact decimal rounding. (CPython
rounds floats half-to-even; no claim exercises a half-way value, and the
normalized weight group is returned unrounded.) -/
def pyRound (ndigits : ℕ) (x : ℚ) : ℚ :=
  ((round (x * 10 ^ ndigits) : ℤ) : ℚ) / 10 ^ ndigits

/-- Embedding of `sample_params` (auto_tuning_config.py, lines 53-125):
seventeen uniform draws from the single shared source in source order,
normalization of the seven-member weight group by its raw sum, and the
per-parameter display rounding of the returned dictionary. The `rng is
None` fallback of line 60 (a fresh unseeded generator) is outside the
model: callers here always pass the source. -/
def sample_params (space : ParamSpace) (rng : Rng) : SampledParams × Rng :=
  let s1 := uniformSample space.threat_engage_threshold.1 space.threat_engage_threshold.2 rng
  let s2 := uniformSample space.threat_abort_threshold.1 space.threat_abort_threshold.2 s1.2
  let s3 := uniformSample space.civil_conf_threshold.1 space.civil_conf_threshold.2 s2.2
  let s4 := uniformSample space.pn_nav_constant.1 space.pn_nav_constant.2 s3.2
  let s5 := uniformSample space.pn_max_turn_rate.1 space.pn_max_turn_rate.2 s4.2
  let s6 := uniformSample space.pn_min_closing_speed.1 space.pn_min_closing_speed.2 s5.2
  let s7 := uniformSample space.interceptor_turn_rate_multiplier.1
    space.interceptor_turn_rate_multiplier.2 s6.2
  let s8 := uniformSample space.sensor_radar_weight.1 space.sensor_radar_weight.2 s7.2
  let s9 := uniformSample space.sensor_audio_weight.1 space.sensor_audio_weight.2 s8.2
  let s10 := uniformSample space.sensor_eo_weight.1 space.sensor_eo_weight.2 s9.2
  let w1 := uniformSample space.threat_weight_existence.1 space.threat_weight_existence.2 s10.2
  let w2 := uniformSample space.threat_weight_classification.1
    space.threat_weight_classification.2 w1.2
  let w3 := uniformSample space.threat_weight_distance.1 space.threat_weight_distance.2 w2.2
  let w4 := uniformSample space.threat_weight_velocity.1 space.threat_weight_velocity.2 w3.2
  let w5 := uniformSample space.threat_weight_behavior.1 space.threat_weight_behavior.2 w4.2
  let w6 := uniformSample space.threat_weight_armed.1 space.threat_weight_armed.2 w5.2
  let w7 := uniformSample space.threat_weight_heading.1 space.threat_weight_heading.2 w6.2
  let total := w1.1 + w2.1 + w3.1 + w4.1 + w5.1 + w6.1 + w7.1
  let threat_weights : ThreatWeights :=
    ⟨w1.1 / total, w2.1 / total, w3.1 / total, w4.1 / total, w5.1 / total,
     w6.1 / total, w7.1 / total⟩
  (⟨pyRound 2 s1.1, pyRound 2 s2.1, pyRound 3 s3.1,
    pyRound 2 s4.1, pyRound 2 s5.1, pyRound 1 s6.1,
    pyRound 2 s7.1,
    pyRound 3 s8.1, pyRound 3 s9.1, pyRound 3 s10.1,
    threat_weights⟩, w7.2)

/-- Normalizing seven uniform draws by their total gives sum exactly 1:
each range has a positive lower bound and an upper bound at least the
lower, so every draw is positive and the total is nonzero. -/
theorem seven_normalized_sum
    (lo1 hi1 lo2 hi2 lo3 hi3 lo4 hi4 lo5 hi5 lo6 hi6 lo7 hi7 : ℚ)
    (u1 u2 u3 u4 u5 u6 u7 : ℚ)
    (hl1 : 0 < lo1) (hh1 : lo1 ≤ hi1) (hu1 : 0 ≤ u1 ∧ u1 ≤ 1)
    (hl2 : 0 < lo2) (hh2 : lo2 ≤ hi2) (hu2 : 0 ≤ u2 ∧ u2 ≤ 1)
    (hl3 : 0 < lo3) (hh3 : lo3 ≤ hi3) (hu3 : 0 ≤ u3 ∧ u3 ≤ 1)
    (hl4 : 0 < lo4) (hh4 : lo4 ≤ hi4) (hu4 : 0 ≤ u4 ∧ u4 ≤ 1)
    (hl5 : 0 < lo5) (hh5 : lo5 ≤ hi5) (hu5 : 0 ≤ u5 ∧ u5 ≤ 1)
    (hl6 : 0 < lo6) (hh6 : lo6 ≤ hi6) (hu6 : 0 ≤ u6 ∧ u6 ≤ 1)
    (hl7 : 0 < lo7) (hh7 : lo7 ≤ hi7) (hu7 : 0 ≤ u7 ∧ u7 ≤ 1) :
    (lo1 + (hi1 - lo1) * u1)
        / (lo1 + (hi1 - lo1) * u1 + (lo2 + (hi2 - lo2) * u2) + (lo3 + (hi3 - lo3) * u3)
            + (lo4 + (hi4 - lo4) * u4) + (lo5 + (hi5 - lo5) * u5) + (lo6 + (hi6 - lo6) * u6)
            + (lo7 + (hi7 - lo7) * u7))
      + (lo2 + (hi2 - lo2) * u2)
        / (lo1 + (hi1 - lo1) * u1 + (lo2 + (hi2 - lo2) * u2) + (lo3 + (hi3 - lo3) * u3)
            + (lo4 + (hi4 - lo4) * u4) + (lo5 + (hi5 - lo5) * u5) + (lo6 + (hi6 - lo6) * u6)
            + (lo7 + (hi7 - lo7) * u7))
      + (lo3 + (hi3 - lo3) * u3)
        / (lo1 + (hi1 - lo1) * u1 + (lo2 + (hi2 - lo2) * u2) + (lo3 + (hi3 - lo3) * u3)
            + (lo4 + (hi4 - lo4) * u4) + (lo5 + (hi5 - lo5) * u5) + (lo6 + (hi6 - lo6) * u6)
            + (lo7 + (hi7 - lo7) * u7))
      + (lo4 + (hi4 - lo4) * u4)
        / (lo1 + (hi1 - lo1) * u1 + (lo2 + (hi2 - lo2) * u2) + (lo3 + (hi3 - lo3) * u3)
            + (lo4 + (hi4 - lo4) * u4) + (lo5 + (hi5 - lo5) * u5) + (lo6 + (hi6 - lo6) * u6)
            + (lo7 + (hi7 - lo7) * u7))
      + (lo5 + (hi5 - lo5) * u5)
        / (lo1 + (hi1 - lo1) * u1 + (lo2 + (hi2 - lo2) * u2) + (lo3 + (hi3 - lo3) * u3)
            + (lo4 + (hi4 - lo4) * u4) + (lo5 + (hi5 - lo5) * u5) + (lo6 + (hi6 - lo6) * u6)
            + (lo7 + (hi7 - lo7) * u7))
      + (lo6 + (hi6 - lo6) * u6)
        / (lo1 + (hi1 - lo1) * u1 + (lo2 + (hi2 - lo2) * u2) + (lo3 + (hi3 - lo3) * u3)
            + (lo4 + (hi4 - lo4) * u4) + (lo5 + (hi5 - lo5) * u5) + (lo6 + (hi6 - lo6) * u6)
            + (lo7 + (hi7 - lo7) * u7))
      + (lo7 + (hi7 - lo7) * u7)
        / (lo1 + (hi1 - lo1) * u1 + (lo2 + (hi2 - lo2) * u2) + (lo3 + (hi3 - lo3) * u3)
            + (lo4 + (hi4 - lo4) * u4) + (lo5 + (hi5 - lo5) * u5) + (lo6 + (hi6 - lo6) * u6)
            + (lo7 + (hi7 - lo7) * u7))
      = 1 := by
  have hp1 : 0 < lo1 + (hi1 - lo1) * u1 := by
    have := mul_nonneg (sub_nonneg.mpr hh1) hu1.1
    linarith
  have hp2 : 0 < lo2 + (hi2 - lo2) * u2 := by
    have := mul_nonneg (sub_nonneg.mpr hh2) hu2.1
    linarith
  have hp3 : 0 < lo3 + (hi3 - lo3) * u3 := by
    have := mul_nonneg (sub_nonneg.mpr hh3) hu3.1
    linarith
  have hp4 : 0 < lo4 + (hi4 - lo4) * u4 := by
    have := mul_nonneg (sub_nonneg.mpr hh4) hu4.1
    linarith
  have hp5 : 0 < lo5 + (hi5 - lo5) * u5 := by
    have := mul_nonneg (sub_nonneg.mpr hh5) hu5.1
    linarith
  have hp6 : 0 < lo6 + (hi6 - lo6) * u6 := by
    have := mul_nonneg (sub_nonneg.mpr hh6) hu6.1
    linarith
  have hp7 : 0 < lo7 + (hi7 - lo7) * u7 := by
    have := mul_nonneg (sub_nonneg.mpr hh7) hu7.1
    linarith
  have hT : 0 < lo1 + (hi1 - lo1) * u1 + (lo2 + (hi2 - lo2) * u2) + (lo3 + (hi3 - lo3) * u3)
      + (lo4 + (hi4 - lo4) * u4) + (lo5 + (hi5 - lo5) * u5) + (lo6 + (hi6 - lo6) * u6)
      + (lo7 + (hi7 - lo7) * u7) := by
    linarith
  rw [div_add_div_same, div_add_div_same, div_add_div_same, div_add_div_same,
    div_add_div_same, div_add_div_same]
  exact div_self (ne_of_gt hT)

/-- C5: for every parameter set sampled from the default space with a
source of unit-interval variates, the normalized threat_weights group sums
to exactly 1 (every sub-range of the group has a positive lower bound, so
the raw sum is nonzero and the division is exact), hence certainly
abs(sum - 1) < 1e-9. -/
theorem c5_weight_normalization (rng : Rng)
    (h : ∀ i, 0 ≤ rng.stream i ∧ rng.stream i ≤ 1) :
    (sample_params DEFAULT_PARAM_SPACE rng).1.threat_weights.sum = 1
    ∧ |(sample_params DEFAULT_PARAM_SPACE rng).1.threat_weights.sum - 1|
      < 1 / 1000000000 := by
  have hsum : (sample_params DEFAULT_PARAM_SPACE rng).1.threat_weights.sum = 1 := by
    simp only [sample_params, uniformSample, rngNext, DEFAULT_PARAM_SPACE,
      ThreatWeights.sum]
    exact seven_normalized_sum _ _ _ _ _ _ _ _ _ _ _ _ _ _ _ _ _ _ _ _ _
      (by norm_num) (by norm_num) (h _)
      (by norm_num) (by norm_num) (h _)
      (by norm_num) (by norm_num) (h _)
      (by norm_num) (by norm_num) (h _)
      (by norm_num) (by norm_num) (h _)
      (by norm_num) (by norm_num) (h _)
      (by norm_num) (by norm_num) (h _)
  refine ⟨hsum, ?_⟩
  rw [hsum]
  norm_num

/-- C5 witness source: the constant stream of zeros, in range. -/
def c5rng : Rng := ⟨fun _ => 0, 0⟩

/-- Witness theorem for C5: the in-range hypothesis holds for `c5rng` and
the theorem yields the exact normalization there. -/
theorem c5_weight_normalization_witness :
    (∀ i : ℕ, 0 ≤ c5rng.stream i ∧ c5rng.stream i ≤ 1)
    ∧ (sample_params DEFAULT_PARAM_SPACE c5rng).1.threat_weights.sum = 1 :=
  ⟨fun _ => by norm_num [c5rng],
   (c5_weight_normalization c5rng (fun _ => by norm_num [c5rng])).1⟩

/-- C6: sampling is a pure function of the seed-determined variate stream
and the space — two calls of sample_params on the same space, each with a
freshly constructed source from the same seed (position 0 of the same
stream), return identical parameter dictionaries and identical final
source states; moreover the call consumes exactly the seventeen draws, so
consecutive trials sharing one source never reuse a variate. -/
theorem c6_sampling_determinism (space : ParamSpace) (s₁ s₂ : ℕ → ℚ)
    (h : ∀ i, s₁ i = s₂ i) :
    sample_params space ⟨s₁, 0⟩ = sample_params space ⟨s₂, 0⟩
    ∧ ∀ n, (sample_params space ⟨s₁, n⟩).2 = ⟨s₁, n + 17⟩ := by
  have hs : s₁ = s₂ := funext h
  subst hs
  exact ⟨rfl, fun n => rfl⟩

/-- Witness theorem for C6: the theorem applied to two syntactically
distinct but pointwise-equal streams. -/
theorem c6_sampling_determinism_witness :
    sample_params DEFAULT_PARAM_SPACE ⟨fun _ => 0, 0⟩
      = sample_params DEFAULT_PARAM_SPACE ⟨fun i => 0 * (i : ℚ), 0⟩ :=
  (c6_sampling_determinism DEFAULT_PARAM_SPACE
    (fun _ => 0) (fun i => 0 * (i : ℚ)) (fun i => by ring)).1
